import Mathlib

/-!
Verification of `main/commands/all/pingconf.go` (the `ping` command of the
Xray-core fork): a single-shot latency probe that builds an outbound-only
runtime instance from a configuration, routes one HTTP HEAD request through
the dial primitive of that instance, and reports the status line together
with the elapsed milliseconds.

The Go functions `measureOutboundDelay` and `measureInstDelay` are embedded
as pure state-passing functions.  Collaborators that live outside this file
of the repository (the configuration loader `core.LoadConfig`, the runtime
`core.New` / `Instance.Start` / `Instance.Close` / `core.Dial`, the
standard-library pieces `time.ParseDuration`, `http.NewRequestWithContext`,
the HTTP client round trip, and `v2net.ParseDestination`) are supplied by an
environment record `Env`.  Execution is instrumented with an event trace so
that ordering and counting properties (close-exactly-once, zero dials before
a parse error, timestamp placement) can be stated.  Go panics are modelled by
an `Outcome` sum: a plain (non-deferred) statement after a call that panics
is skipped, exactly as in Go.

The wall clock is modelled as a monotonically advancing natural number of
nanoseconds, reflecting the monotonic-clock reading used by `time.Now` /
`time.Since`; `Milliseconds()` is truncating division by 1e6, so the
reported elapsed time is a natural number and in particular non-negative.
-/

namespace PingConf

/-- A Go `error` value, identified by its message. -/
structure GoError where
  msg : String
deriving DecidableEq, Repr

/-- A structured destination as produced by `v2net.ParseDestination`
("network:address" style input). -/
structure Destination where
  network : String
  address : String
deriving DecidableEq, Repr

/-- A `serial.TypedMessage`: a type discriminator (type URL) plus an opaque
serialized payload. -/
structure TypedMessage where
  type : String
  value : String
deriving DecidableEq, Repr

/-- The slice of a `core.Config` that `measureOutboundDelay` touches:
the application-handler list (`config.App`), the inbound-handler list
(`config.Inbound`) and the outbound-handler list (`config.Outbound`). -/
structure Config where
  app : List TypedMessage
  inbound : List TypedMessage
  outbound : List TypedMessage
deriving DecidableEq, Repr

/-- The fields of the `http.Transport` that `measureInstDelay` sets
(the dial callback is modelled separately by `transportDialContext`). -/
structure Transport where
  tlsHandshakeTimeout : Int
  tlsInsecureSkipVerify : Bool
  disableKeepAlives : Bool
deriving DecidableEq, Repr

/-- The `http.Client` built by `measureInstDelay`: the transport plus the
overall client timeout. -/
structure Client where
  transport : Transport
  timeout : Int
deriving DecidableEq, Repr

/-- An `http.Request`: method, URL and added headers. -/
structure Request where
  method : String
  url : String
  headers : List (String × String)
deriving DecidableEq, Repr

/-- An established connection returned by the dial primitive (opaque). -/
structure Conn where
  id : Nat
deriving DecidableEq, Repr

/-- Instrumentation events recorded along an execution. -/
inductive Event where
  | instConstructed
  | instStarted
  | instClosed
  | probeBegin
  | requestBuilt (method url : String)
  | recordStart (t : Nat)
  | coreDialCall (dest : Destination)
  | hostDialCall (network addr : String)
  | headersReceived (status : String)
  | computeElapsed (ms : Nat)
  | bodyClosed
deriving DecidableEq, Repr

/-- Execution state: the monotonic clock (nanoseconds) and the event trace. -/
structure PState where
  clock : Nat
  events : List Event
deriving DecidableEq, Repr

/-- Append one event to the trace. -/
def emit (s : PState) (e : Event) : PState :=
  { s with events := s.events ++ [e] }

/-- Let the monotonic clock advance by `d` nanoseconds. -/
def advance (s : PState) (d : Nat) : PState :=
  { s with clock := s.clock + d }

/-- Outcome of running a piece of Go code: a normal return, or a panic that
propagates past every following plain (non-deferred) statement. -/
inductive Outcome (α : Type) where
  | ret (a : α)
  | panicked (m : String)
deriving DecidableEq, Repr

/-- What the HTTP round trip of `http.Client.Do` yields once a connection has
been established: a response (identified by its status line), an error, or a
panic somewhere inside the request processing. -/
inductive RespOutcome where
  | ok (status : String)
  | err (e : GoError)
  | panicked (m : String)
deriving DecidableEq, Repr

/-- The package-level flag state of the `all` package that the source reads
(`configFiles`/`configDir` accumulated by the flag parser, and the
`-format`, `-u`, `-t` flag values `format`, `pingUrl`, `pingTimeout`). -/
structure PackageState where
  configFiles : List String
  configDir : String
  format : String
  pingUrl : String
  pingTimeout : String
deriving DecidableEq, Repr

/-- The collaborators of the probe, all of which live outside
`pingconf.go`: the standard library, `core.*`, `conf.*` and `v2net.*`.
Instances are identified by a number handed out by `coreNew`. -/
structure Env where
  /-- `time.ParseDuration`: nanoseconds on success. -/
  parseDuration : String → Except GoError Int
  /-- `http.NewRequestWithContext ctx method url nil`. -/
  newRequest : String → String → Except GoError Request
  /-- `v2net.ParseDestination` applied to a "network:addr" string. -/
  parseDestination : String → Except GoError Destination
  /-- `core.Dial ctx inst dest`. -/
  coreDial : Nat → Destination → Except GoError Conn
  /-- The (network, addr) pair the HTTP client derives from the request URL
  and passes to the `DialContext` callback of the transport. -/
  dialTarget : String → String × String
  /-- The round trip performed by the client once the connection exists. -/
  respond : Request → Conn → RespOutcome
  /-- Nanoseconds the whole `c.Do(req)` call takes. -/
  doElapsed : Nat
  /-- `getConfigFilePath`: resolves the package flag state (and the
  filesystem, which it queries via `os.Stat` / `os.ReadDir` / `os.Getwd`)
  into the list of configuration sources. -/
  resolveConfigFiles : PackageState → List String
  /-- `core.GetFormatByExtension`. -/
  getFormatByExtension : String → String
  /-- `core.LoadConfig format files`. -/
  loadConfig : String → List String → Except GoError Config
  /-- `core.New config`: a fresh instance identifier on success. -/
  coreNew : Config → Except GoError Nat
  /-- `Instance.Start`: `none` on success, `some e` on failure. -/
  instStart : Nat → Option GoError
  /-- `Instance.Close`: its error, which the source discards. -/
  instClose : Nat → Option GoError
  /-- `serial.ToTypedMessage((conf.LogConfig{LogLevel: "none"}).Build())`:
  the typed-message descriptor of the silent log handler. -/
  logSerial : TypedMessage

/-- The error wrapping on the configuration-load failure path
(`errors.New("failed to load config files: [", files, "]").Base(err)`),
with `cmdarg.Arg.String()` joining the sources with spaces. -/
def wrapLoadError (files : List String) (e : GoError) : GoError :=
  ⟨"failed to load config files: [" ++ String.intercalate " " files ++ "] > " ++ e.msg⟩

/-- Lines 157-163: `getConfigFormat` maps the `-format` flag through
`core.GetFormatByExtension`, falling back to "auto" on the empty string. -/
def getConfigFormat (env : Env) (ps : PackageState) : String :=
  let f := env.getFormatByExtension ps.format
  if f = "" then "auto" else f

/-- Lines 176-180: the normalization loop
`for i, a := range config.App { if strings.Compare(a.Type, logSerial.Type) == 0 { config.App[i] = logSerial } }`.
Each iteration reads the element at its own index and overwrites only that
index, so the loop is a pointwise map over the list.  Note that the loop has
no `break`: it does not stop at the first matching entry. -/
def normalizeApp (logSerial : TypedMessage) (app : List TypedMessage) : List TypedMessage :=
  app.map (fun a => if a.type = logSerial.type then logSerial else a)

/-- Lines 173-181: replace log-typed application handlers by the silent log
descriptor and clear the inbound list (`config.Inbound = nil`). -/
def normalizeConfig (logSerial : TypedMessage) (c : Config) : Config :=
  { c with app := normalizeApp logSerial c.app, inbound := [] }

/-- Lines 216-222: the `DialContext` callback of the transport.  It parses
the requested (network, addr) pair into a `Destination` via
`v2net.ParseDestination(fmt.Sprintf("%s:%s", network, addr))` and hands it to
`core.Dial`; it never touches the host network stack (no `hostDialCall`
event is ever emitted). -/
def transportDialContext (env : Env) (inst : Nat) (network addr : String) (s : PState) :
    Except GoError Conn × PState :=
  match env.parseDestination (network ++ ":" ++ addr) with
  | .error e => (.error e, s)
  | .ok dest => (env.coreDial inst dest, emit s (.coreDialCall dest))

/-- Lines 210-223: the `http.Transport` literal (scalar fields). -/
def probeTransport (connectTimeout : Int) : Transport :=
  { tlsHandshakeTimeout := connectTimeout
    tlsInsecureSkipVerify := true
    disableKeepAlives := true }

/-- Lines 225-228: the `http.Client` literal. -/
def probeClient (connectTimeout : Int) : Client :=
  { transport := probeTransport connectTimeout, timeout := connectTimeout }

/-- The standard-library `c.Do(req)` round trip: with keep-alives disabled
and a single request, the client establishes one fresh connection through the
`DialContext` callback of the transport and then performs the exchange.
Dial and response errors surface as the error of the call; a panic inside
the round trip propagates. -/
def clientDo (env : Env) (inst : Nat) (c : Client) (req : Request) (s : PState) :
    Outcome (Except GoError String) × PState :=
  let na := env.dialTarget req.url
  let (dres, s1) := transportDialContext env inst na.1 na.2 s
  match dres with
  | .error e => (.ret (.error e), advance s1 env.doElapsed)
  | .ok conn =>
    match env.respond req conn with
    | .err e => (.ret (.error e), advance s1 env.doElapsed)
    | .panicked m => (.panicked m, s1)
    | .ok status =>
        (.ret (.ok status), emit (advance s1 env.doElapsed) (.headersReceived status))

/-- Lines 197-241: `measureInstDelay(ctx, inst, url, timeout)`.
Parses the timeout, builds the HEAD request with the two fixed headers,
builds the transport and client, records the start time, performs the round
trip, computes elapsed milliseconds, closes the response body and formats
`ret_msg:<status>,ret_time:<ms>`.  Every error path returns the empty string
paired with the error. -/
def measureInstDelay (env : Env) (inst : Nat) (url timeout : String) (s : PState) :
    Outcome (String × Option GoError) × PState :=
  let s0 := emit s .probeBegin
  match env.parseDuration timeout with
  | .error e => (.ret ("", some e), s0)
  | .ok connectTimeout =>
    match env.newRequest "HEAD" url with
    | .error e => (.ret ("", some e), s0)
    | .ok req0 =>
      let req : Request :=
        { req0 with headers := req0.headers
            ++ [("Connection", "close"), ("Accept-Encoding", "gzip")] }
      let s1 := emit s0 (.requestBuilt "HEAD" url)
      let c := probeClient connectTimeout
      let start := s1.clock
      let s2 := emit s1 (.recordStart start)
      let (res, s3) := clientDo env inst c req s2
      match res with
      | .panicked m => (.panicked m, s3)
      | .ret (.error e) => (.ret ("", some e), s3)
      | .ret (.ok status) =>
        let timeElapsed := (s3.clock - start) / 1000000
        let s4 := emit s3 (.computeElapsed timeElapsed)
        let s5 := emit s4 .bodyClosed
        (.ret ("ret_msg:" ++ status ++ ",ret_time:" ++ toString timeElapsed, none), s5)

/-- Lines 165-195: `measureOutboundDelay()`.  Reads the package flag state,
loads the configuration, normalizes it (silent log, no inbounds), constructs
and starts the instance, runs the probe, closes the instance (discarding the
close error) and returns the pair produced by the probe.  The close is a
plain call, not a deferred one, so a panic from the probe skips it. -/
def measureOutboundDelay (env : Env) (ps : PackageState) (s : PState) :
    Outcome (String × Option GoError) × PState :=
  let configFiles := env.resolveConfigFiles ps
  match env.loadConfig (getConfigFormat env ps) configFiles with
  | .error e => (.ret ("", some (wrapLoadError configFiles e)), s)
  | .ok config0 =>
    let config := normalizeConfig env.logSerial config0
    match env.coreNew config with
    | .error e => (.ret ("", some e), s)
    | .ok inst =>
      let s1 := emit s .instConstructed
      match env.instStart inst with
      | some e => (.ret ("", some e), s1)
      | none =>
        let s2 := emit s1 .instStarted
        let (res, s3) := measureInstDelay env inst ps.pingUrl ps.pingTimeout s2
        match res with
        | .panicked m => (.panicked m, s3)
        | .ret p =>
          let _closeErr := env.instClose inst
          let s4 := emit s3 .instClosed
          (.ret p, s4)

/-! Concrete collaborator behaviours used to evaluate the model on closed
inputs: a well-behaved environment in which every collaborator succeeds and
the round trip takes 3ms, plus variations for the failure paths. -/

/-- The parse error `time.ParseDuration` reports on a unitless string. -/
def exParseErr : GoError := ⟨"time: missing unit in duration"⟩

/-- The destination the example environment parses every dial target to. -/
def exDest : Destination := ⟨"tcp", "www.google.com:443"⟩

/-- A well-behaved environment: one config file, empty configuration, the
instance constructs, starts and closes cleanly, "10s" is the only duration
that parses, every dial succeeds and the server answers `200 OK` after 3ms. -/
def exEnv : Env :=
  { parseDuration := fun t => if t = "10s" then .ok 10000000000 else .error exParseErr
    newRequest := fun method url => .ok { method := method, url := url, headers := [] }
    parseDestination := fun _ => .ok exDest
    coreDial := fun _ _ => .ok ⟨7⟩
    dialTarget := fun _ => ("tcp", "www.google.com:443")
    respond := fun _ _ => .ok "200 OK"
    doElapsed := 3000000
    resolveConfigFiles := fun _ => ["config.json"]
    getFormatByExtension := fun _ => ""
    loadConfig := fun _ _ => .ok { app := [], inbound := [], outbound := [] }
    coreNew := fun _ => .ok 1
    instStart := fun _ => none
    instClose := fun _ => none
    logSerial := { type := "xray.app.log.Config", value := "level:none" } }

/-- The package flag state of a plain run: defaults plus a 10s timeout. -/
def psGood : PackageState :=
  { configFiles := ["config.json"], configDir := "", format := "auto"
    pingUrl := "https://www.google.com/", pingTimeout := "10s" }

/-- The same flag state with the malformed timeout "10" (no unit). -/
def psBadTimeout : PackageState :=
  { psGood with pingTimeout := "10" }

/-- The well-behaved environment, except that the HTTP round trip panics. -/
def exEnvPanic : Env := { exEnv with respond := fun _ _ => .panicked "boom" }

/-- The well-behaved environment, except that `core.New` rejects the
configuration. -/
def exEnvNewFail : Env := { exEnv with coreNew := fun _ => .error ⟨"core.New rejected config"⟩ }

/-- The well-behaved environment, except that `Instance.Start` fails. -/
def exEnvStartFail : Env :=
  { exEnv with instStart := fun _ => some ⟨"instance failed to start"⟩ }

/-- The well-behaved environment, except that `Instance.Close` reports an
error (which the source discards). -/
def exEnvCloseFail : Env := { exEnv with instClose := fun _ => some ⟨"close failed"⟩ }

/-- A silent-log typed message used in concrete normalization examples. -/
def exLogSerial : TypedMessage := ⟨"xray.app.log.Config", "level:none"⟩

/-- An application-handler list with two log-typed entries (first and third)
around an unrelated entry. -/
def exApp : List TypedMessage :=
  [⟨"xray.app.log.Config", "original-log"⟩,
   ⟨"xray.app.proxyman.OutboundConfig", "outbound"⟩,
   ⟨"xray.app.log.Config", "second-log"⟩]

/-- Recognizer for `Event.instClosed`. -/
def isInstClosed : Event → Bool
  | .instClosed => true
  | _ => false

/-- Recognizer for `Event.instStarted`. -/
def isInstStarted : Event → Bool
  | .instStarted => true
  | _ => false

/-- Recognizer for `Event.coreDialCall`. -/
def isCoreDial : Event → Bool
  | .coreDialCall _ => true
  | _ => false

/-- Recognizer for `Event.hostDialCall`. -/
def isHostDial : Event → Bool
  | .hostDialCall _ _ => true
  | _ => false

/-- Recognizer for `Event.requestBuilt`. -/
def isRequestBuilt : Event → Bool
  | .requestBuilt _ _ => true
  | _ => false

/-- Recognizer for `Event.probeBegin`. -/
def isProbeBegin : Event → Bool
  | .probeBegin => true
  | _ => false

/-! Helper lemmas shared by the claim theorems. -/

/-- Helper: the probe `measureInstDelay` never emits an `instClosed` event,
so the count of `instClosed` events is preserved across it. -/
theorem measureInstDelay_countP_instClosed (env : Env) (inst : Nat) (url tmo : String)
    (s : PState) :
    ((measureInstDelay env inst url tmo s).2.events.countP isInstClosed)
      = s.events.countP isInstClosed := by
  unfold measureInstDelay clientDo transportDialContext
  repeat' split <;> (try simp_all [emit, advance, List.countP_append, isInstClosed])

/-- Helper: every error return of `measureInstDelay` carries the empty string
as its result component. -/
theorem measureInstDelay_error_empty (env : Env) (inst : Nat) (url tmo : String) (s : PState)
    (d : String) (e : GoError)
    (h : (measureInstDelay env inst url tmo s).1 = .ret (d, some e)) : d = "" := by
  unfold measureInstDelay clientDo transportDialContext at h
  repeat' split at h <;> (try simp_all)

/-! The claims. -/

/-- Claim C1 (counterexample): the claim that `Close()` is invoked on every
exit path of the probe, including a panic, is false.  In an execution where
construction and `Start()` succeed and the HTTP round trip panics, the
instance is started but `inst.Close()` is never reached, because the source
calls `inst.Close()` as a plain statement after `measureInstDelay` rather
than deferring it. -/
theorem close_skipped_on_probe_panic :
    (measureOutboundDelay exEnvPanic psGood ⟨0, []⟩).1 = .panicked "boom" ∧
    (measureOutboundDelay exEnvPanic psGood ⟨0, []⟩).2.events.countP isInstClosed = 0 ∧
    (measureOutboundDelay exEnvPanic psGood ⟨0, []⟩).2.events.countP isInstStarted = 1 := by
  decide

/-- Claim C1 (amended): for every execution in which instance construction
and `Start()` succeed and the probe function returns normally (with a result
or with an error), `Close()` is invoked on the instance exactly once before
`measureOutboundDelay` returns; if the probe panics, `Close()` is not
invoked. -/
theorem measureOutboundDelay_closes_once_on_normal_return (env : Env) (ps : PackageState)
    (t0 : Nat) (c : Config) (inst : Nat) (p : String × Option GoError)
    (hload : env.loadConfig (getConfigFormat env ps) (env.resolveConfigFiles ps) = .ok c)
    (hnew : env.coreNew (normalizeConfig env.logSerial c) = .ok inst)
    (hstart : env.instStart inst = none)
    (hret : (measureOutboundDelay env ps ⟨t0, []⟩).1 = .ret p) :
    ((measureOutboundDelay env ps ⟨t0, []⟩).2.events.countP isInstClosed) = 1 := by
  have hcnt := measureInstDelay_countP_instClosed env inst ps.pingUrl ps.pingTimeout
    (emit (emit ⟨t0, []⟩ .instConstructed) .instStarted)
  simp only [measureOutboundDelay, hload, hnew, hstart] at hret ⊢
  rcases hE : measureInstDelay env inst ps.pingUrl ps.pingTimeout
      (emit (emit ⟨t0, []⟩ .instConstructed) .instStarted) with ⟨res, s3⟩
  rw [hE] at hret hcnt
  cases res with
  | panicked m => simp at hret
  | ret q =>
    simp only [emit, List.countP_append] at hcnt ⊢
    simp [isInstClosed, hcnt]

/-- Claim C1 (witness): in the well-behaved run, exactly one close event is
recorded. -/
theorem measureOutboundDelay_closes_once_witness :
    ((measureOutboundDelay exEnv psGood ⟨0, []⟩).2.events.countP isInstClosed) = 1 :=
  measureOutboundDelay_closes_once_on_normal_return exEnv psGood 0
    { app := [], inbound := [], outbound := [] } 1 ("ret_msg:200 OK,ret_time:3", none)
    rfl rfl rfl rfl

/-- Claim C2: whenever the HTTP round trip completes with any response at
all (any status line, 2xx or not), the probe returns success: the error
component is `none` and the result is exactly
`ret_msg:<status line>,ret_time:<elapsed ms>`, where the elapsed
milliseconds is a natural number (the monotonic clock difference divided by
1e6) and hence non-negative; the status line is never inspected or treated
as an error. -/
theorem measureInstDelay_any_status_ok (env : Env) (inst : Nat) (url tmo : String) (s : PState)
    (dur : Int) (req0 : Request) (network addr : String) (dest : Destination) (conn : Conn)
    (status : String)
    (hdur : env.parseDuration tmo = .ok dur)
    (hreq : env.newRequest "HEAD" url = .ok req0)
    (hna : env.dialTarget req0.url = (network, addr))
    (hdest : env.parseDestination (network ++ ":" ++ addr) = .ok dest)
    (hdial : env.coreDial inst dest = .ok conn)
    (hresp : env.respond
        { req0 with headers := req0.headers
            ++ [("Connection", "close"), ("Accept-Encoding", "gzip")] } conn
      = .ok status) :
    (measureInstDelay env inst url tmo s).1
      = .ret ("ret_msg:" ++ status ++ ",ret_time:" ++ toString (env.doElapsed / 1000000),
          none) := by
  simp [measureInstDelay, clientDo, transportDialContext, emit, advance,
    hdur, hreq, hna, hdest, hdial, hresp]

/-- Claim C2 (witness): the well-behaved 3ms probe reports
`ret_msg:200 OK,ret_time:3` with no error. -/
theorem measureInstDelay_any_status_ok_witness :
    (measureInstDelay exEnv 1 "https://www.google.com/" "10s" ⟨0, []⟩).1
      = .ret ("ret_msg:200 OK,ret_time:3", none) :=
  measureInstDelay_any_status_ok exEnv 1 "https://www.google.com/" "10s" ⟨0, []⟩
    10000000000 { method := "HEAD", url := "https://www.google.com/", headers := [] }
    "tcp" "www.google.com:443" exDest ⟨7⟩ "200 OK" rfl rfl rfl rfl rfl rfl

/-- Claim C3 (counterexample): the claim that only the FIRST matching
application-handler entry is replaced, with any later matching entry left
byte-identical, is false.  The loop has no `break`: on a list whose first
and third entries carry the log type discriminator, the third entry is
replaced as well. -/
theorem normalizeApp_replaces_later_match :
    (normalizeApp exLogSerial exApp)[2]? = some exLogSerial ∧
    exApp[2]? = some ⟨"xray.app.log.Config", "second-log"⟩ ∧
    some exLogSerial ≠ exApp[2]? := by decide

/-- Claim C3 (amended): the normalizer replaces in place EVERY
application-handler entry whose type discriminator equals that of the silent
log handler (so with at most one matching entry this coincides with
first-match replacement), leaving every non-matching entry unchanged and
preserving length and relative order; when no entry matches, the list is
returned unchanged and this is not an error. -/
theorem normalizeApp_pointwise (ls : TypedMessage) (app : List TypedMessage) :
    (normalizeApp ls app).length = app.length ∧
    (∀ i : Nat, (normalizeApp ls app)[i]?
        = (app[i]?).map (fun a => if a.type = ls.type then ls else a)) ∧
    ((∀ a ∈ app, a.type ≠ ls.type) → normalizeApp ls app = app) := by
  refine ⟨by simp [normalizeApp], fun i => by simp [normalizeApp, List.getElem?_map], ?_⟩
  induction app with
  | nil => intro _; rfl
  | cons a l ih =>
    intro hnone
    have ha : a.type ≠ ls.type := hnone a (List.mem_cons_self a l)
    have hl := ih (fun b hb => hnone b (List.mem_cons_of_mem a hb))
    simp only [normalizeApp, List.map_cons, if_neg ha] at hl ⊢
    rw [hl]

/-- Claim C3 (witness): a list with no log-typed entry is left unchanged. -/
theorem normalizeApp_pointwise_witness :
    normalizeApp exLogSerial [⟨"xray.app.proxyman.OutboundConfig", "outbound"⟩]
      = [⟨"xray.app.proxyman.OutboundConfig", "outbound"⟩] :=
  (normalizeApp_pointwise exLogSerial [⟨"xray.app.proxyman.OutboundConfig", "outbound"⟩]).2.2
    (by decide)

/-- Claim C4: on a malformed timeout specification (one `time.ParseDuration`
rejects), the probe returns that parse error, paired with the empty string,
before any network activity: the returned state shows that only the
probe-entry event was recorded — no request was built and the dial primitive
was invoked zero times. -/
theorem measureInstDelay_parse_error_no_dial (env : Env) (inst : Nat) (url tmo : String)
    (s : PState) (e : GoError) (h : env.parseDuration tmo = .error e) :
    measureInstDelay env inst url tmo s = (.ret ("", some e), emit s .probeBegin) ∧
    ((measureInstDelay env inst url tmo s).2.events.countP isCoreDial
      = s.events.countP isCoreDial) ∧
    ((measureInstDelay env inst url tmo s).2.events.countP isRequestBuilt
      = s.events.countP isRequestBuilt) := by
  have h1 : measureInstDelay env inst url tmo s = (.ret ("", some e), emit s .probeBegin) := by
    simp only [measureInstDelay, h]
  refine ⟨h1, ?_, ?_⟩ <;> rw [h1] <;>
    simp [emit, List.countP_append, isCoreDial, isRequestBuilt]

/-- Claim C4 (witness): the timeout "10" (no unit) fails to parse and the
probe performs zero dials. -/
theorem measureInstDelay_parse_error_witness :
    measureInstDelay exEnv 1 "https://www.google.com/" "10" ⟨0, []⟩
        = (.ret ("", some exParseErr), emit ⟨0, []⟩ .probeBegin) ∧
    ((measureInstDelay exEnv 1 "https://www.google.com/" "10" ⟨0, []⟩).2.events.countP isCoreDial
        = (⟨0, []⟩ : PState).events.countP isCoreDial) ∧
    ((measureInstDelay exEnv 1 "https://www.google.com/" "10"
        ⟨0, []⟩).2.events.countP isRequestBuilt
        = (⟨0, []⟩ : PState).events.countP isRequestBuilt) :=
  measureInstDelay_parse_error_no_dial exEnv 1 "https://www.google.com/" "10" ⟨0, []⟩
    exParseErr rfl

/-- Claim C5: with a well-formed timeout parsing to duration `d`, the
transport and client the probe constructs satisfy: TLS handshake timeout and
overall client timeout both equal `d`, keep-alives are disabled, TLS
certificate checking is skipped; and the connection-establishment callback
of the transport parses the requested network/address pair into a structured
`Destination` and invokes `core.Dial` on it (recording a `coreDialCall`
event), propagates the parse error otherwise, and never performs a host
dial. -/
theorem probe_client_transport_dial_config (env : Env) (inst : Nat) (tmo : String) (d : Int)
    (network addr : String) (s : PState)
    (_h : env.parseDuration tmo = .ok d) :
    (probeClient d).transport.tlsHandshakeTimeout = d ∧
    (probeClient d).timeout = d ∧
    (probeClient d).transport.disableKeepAlives = true ∧
    (probeClient d).transport.tlsInsecureSkipVerify = true ∧
    (∀ dest, env.parseDestination (network ++ ":" ++ addr) = .ok dest →
      transportDialContext env inst network addr s
        = (env.coreDial inst dest, emit s (.coreDialCall dest))) ∧
    (∀ e, env.parseDestination (network ++ ":" ++ addr) = .error e →
      transportDialContext env inst network addr s = (.error e, s)) ∧
    ((transportDialContext env inst network addr s).2.events.countP isHostDial
      = s.events.countP isHostDial) := by
  refine ⟨rfl, rfl, rfl, rfl, ?_, ?_, ?_⟩
  · intro dest hd
    simp [transportDialContext, hd]
  · intro e he
    simp [transportDialContext, he]
  · unfold transportDialContext
    split <;> simp [emit, List.countP_append, isHostDial]

/-- Claim C5 (witness): with the 10s timeout the constructed transport and
client carry the parsed duration, and a concrete dial goes through the
parsed destination and `core.Dial` with zero host dials. -/
theorem probe_client_transport_dial_witness :
    (probeClient 10000000000).transport.tlsHandshakeTimeout = 10000000000 ∧
    (probeClient 10000000000).timeout = 10000000000 ∧
    (probeClient 10000000000).transport.disableKeepAlives = true ∧
    (probeClient 10000000000).transport.tlsInsecureSkipVerify = true ∧
    transportDialContext exEnv 1 "tcp" "www.google.com:443" ⟨0, []⟩
      = (.ok ⟨7⟩, emit ⟨0, []⟩ (.coreDialCall exDest)) ∧
    (transportDialContext exEnv 1 "tcp" "www.google.com:443" ⟨0, []⟩).2.events.countP isHostDial
      = (⟨0, []⟩ : PState).events.countP isHostDial := by
  have h := probe_client_transport_dial_config exEnv 1 "10s" 10000000000 "tcp"
    "www.google.com:443" ⟨0, []⟩ rfl
  exact ⟨h.1, h.2.1, h.2.2.1, h.2.2.2.1, h.2.2.2.2.1 exDest rfl, h.2.2.2.2.2.2⟩

/-- Claim C6: if `core.New` rejects the normalized configuration,
`measureOutboundDelay` returns that error at once — the returned state is
the input state, so the probe was never entered and no teardown happened (no
instance exists); if construction succeeds but `Start()` fails, the error is
returned with only the construction event recorded — again the probe was
never entered. -/
theorem measureOutboundDelay_build_start_failure (env : Env) (ps : PackageState) (s : PState) :
    (∀ c e, env.loadConfig (getConfigFormat env ps) (env.resolveConfigFiles ps) = .ok c →
      env.coreNew (normalizeConfig env.logSerial c) = .error e →
      measureOutboundDelay env ps s = (.ret ("", some e), s)) ∧
    (∀ c inst e, env.loadConfig (getConfigFormat env ps) (env.resolveConfigFiles ps) = .ok c →
      env.coreNew (normalizeConfig env.logSerial c) = .ok inst →
      env.instStart inst = some e →
      measureOutboundDelay env ps s = (.ret ("", some e), emit s .instConstructed)) := by
  constructor
  · intro c e h1 h2
    simp [measureOutboundDelay, h1, h2]
  · intro c inst e h1 h2 h3
    simp [measureOutboundDelay, h1, h2, h3]

/-- Claim C6 (witness): concrete construction-failure and start-failure
runs return the collaborator error unchanged with no probe events. -/
theorem measureOutboundDelay_build_start_failure_witness :
    measureOutboundDelay exEnvNewFail psGood ⟨0, []⟩
        = (.ret ("", some ⟨"core.New rejected config"⟩), ⟨0, []⟩) ∧
    measureOutboundDelay exEnvStartFail psGood ⟨0, []⟩
        = (.ret ("", some ⟨"instance failed to start"⟩), emit ⟨0, []⟩ .instConstructed) :=
  ⟨(measureOutboundDelay_build_start_failure exEnvNewFail psGood ⟨0, []⟩).1
      { app := [], inbound := [], outbound := [] } ⟨"core.New rejected config"⟩ rfl rfl,
   (measureOutboundDelay_build_start_failure exEnvStartFail psGood ⟨0, []⟩).2
      { app := [], inbound := [], outbound := [] } 1 ⟨"instance failed to start"⟩ rfl rfl rfl⟩

/-- Claim C7: when `Start()` succeeded and the probe returned the pair
(delay, err), `measureOutboundDelay` returns exactly that pair, for EVERY
behaviour `f` of `Instance.Close` — the close error is discarded and never
replaces or augments the probe outcome; the final state only adds the one
close event. -/
theorem measureOutboundDelay_returns_probe_pair (env : Env) (f : Nat → Option GoError)
    (ps : PackageState) (s : PState) (c : Config) (inst : Nat)
    (delay : String) (errOut : Option GoError) (s3 : PState)
    (hload : env.loadConfig (getConfigFormat env ps) (env.resolveConfigFiles ps) = .ok c)
    (hnew : env.coreNew (normalizeConfig env.logSerial c) = .ok inst)
    (hstart : env.instStart inst = none)
    (hmid : measureInstDelay env inst ps.pingUrl ps.pingTimeout
        (emit (emit s .instConstructed) .instStarted) = (.ret (delay, errOut), s3)) :
    measureOutboundDelay { env with instClose := f } ps s
      = (.ret (delay, errOut), emit s3 .instClosed) := by
  have hsame : measureInstDelay { env with instClose := f } inst ps.pingUrl ps.pingTimeout
      (emit (emit s .instConstructed) .instStarted)
      = measureInstDelay env inst ps.pingUrl ps.pingTimeout
      (emit (emit s .instConstructed) .instStarted) := rfl
  simp only [measureOutboundDelay]
  simp only [show ({ env with instClose := f } : Env).loadConfig = env.loadConfig from rfl,
    show ({ env with instClose := f } : Env).coreNew = env.coreNew from rfl,
    show ({ env with instClose := f } : Env).instStart = env.instStart from rfl,
    show ({ env with instClose := f } : Env).logSerial = env.logSerial from rfl,
    show ({ env with instClose := f } : Env).resolveConfigFiles = env.resolveConfigFiles from rfl,
    show getConfigFormat { env with instClose := f } ps = getConfigFormat env ps from rfl,
    hsame, hload, hnew, hstart, hmid]

/-- Claim C7 (witness): even when `Close` reports an error, the successful
probe report is returned untouched. -/
theorem measureOutboundDelay_returns_probe_pair_witness :
    measureOutboundDelay exEnvCloseFail psGood ⟨0, []⟩
      = (.ret ("ret_msg:200 OK,ret_time:3", none),
         ⟨3000000, [.instConstructed, .instStarted, .probeBegin,
            .requestBuilt "HEAD" "https://www.google.com/", .recordStart 0,
            .coreDialCall exDest, .headersReceived "200 OK", .computeElapsed 3,
            .bodyClosed, .instClosed]⟩) :=
  measureOutboundDelay_returns_probe_pair exEnv (fun _ => some ⟨"close failed"⟩) psGood ⟨0, []⟩
    { app := [], inbound := [], outbound := [] } 1 "ret_msg:200 OK,ret_time:3" none
    ⟨3000000, [.instConstructed, .instStarted, .probeBegin,
       .requestBuilt "HEAD" "https://www.google.com/", .recordStart 0,
       .coreDialCall exDest, .headersReceived "200 OK", .computeElapsed 3, .bodyClosed]⟩
    rfl rfl rfl rfl

/-- Claim C8: on every successful probe the full event trace is exactly:
probe entry, request build, start-timestamp record (immediately before the
round trip begins), the dial inside the round trip, headers received,
elapsed-milliseconds computation immediately after the headers (no
body-read event exists between them), and the body release
(`resp.Body.Close()`, which for a bodiless HEAD response is the draining
close that releases the connection) before the return. -/
theorem measureInstDelay_success_trace (env : Env) (inst : Nat) (url tmo : String) (s : PState)
    (dur : Int) (req0 : Request) (network addr : String) (dest : Destination) (conn : Conn)
    (status : String)
    (hdur : env.parseDuration tmo = .ok dur)
    (hreq : env.newRequest "HEAD" url = .ok req0)
    (hna : env.dialTarget req0.url = (network, addr))
    (hdest : env.parseDestination (network ++ ":" ++ addr) = .ok dest)
    (hdial : env.coreDial inst dest = .ok conn)
    (hresp : env.respond
        { req0 with headers := req0.headers
            ++ [("Connection", "close"), ("Accept-Encoding", "gzip")] } conn
      = .ok status) :
    measureInstDelay env inst url tmo s =
      (.ret ("ret_msg:" ++ status ++ ",ret_time:" ++ toString (env.doElapsed / 1000000), none),
       { clock := s.clock + env.doElapsed,
         events := s.events ++ [.probeBegin, .requestBuilt "HEAD" url, .recordStart s.clock,
           .coreDialCall dest, .headersReceived status,
           .computeElapsed (env.doElapsed / 1000000), .bodyClosed] }) := by
  simp [measureInstDelay, clientDo, transportDialContext, emit, advance,
    hdur, hreq, hna, hdest, hdial, hresp, Nat.add_sub_cancel_left]

/-- Claim C8 (witness): the concrete 3ms probe records exactly the expected
trace. -/
theorem measureInstDelay_success_trace_witness :
    measureInstDelay exEnv 1 "https://www.google.com/" "10s" ⟨0, []⟩
      = (.ret ("ret_msg:200 OK,ret_time:3", none),
         ⟨3000000, [.probeBegin, .requestBuilt "HEAD" "https://www.google.com/",
            .recordStart 0, .coreDialCall exDest, .headersReceived "200 OK",
            .computeElapsed 3, .bodyClosed]⟩) :=
  measureInstDelay_success_trace exEnv 1 "https://www.google.com/" "10s" ⟨0, []⟩
    10000000000 { method := "HEAD", url := "https://www.google.com/", headers := [] }
    "tcp" "www.google.com:443" exDest ⟨7⟩ "200 OK" rfl rfl rfl rfl rfl rfl

/-- Claim C9 (counterexample): the claim that `measureOutboundDelay`
receives the configuration, URL and timeout as explicit parameters and
reads no package-level state is false: the source function takes no
parameters, and two runs with identical collaborator behaviour but
different package-level flag state (`pingTimeout` "10s" versus "10")
produce different results. -/
theorem measureOutboundDelay_package_state_dependence :
    (measureOutboundDelay exEnv psGood ⟨0, []⟩).1
      ≠ (measureOutboundDelay exEnv psBadTimeout ⟨0, []⟩).1 := by decide

/-- Claim C9 (amended): `measureOutboundDelay` reads the package-level flag
state rather than explicit parameters; its outcome depends on that state
only through the resolved configuration sources, the `-format` flag, and the
`pingUrl` / `pingTimeout` flags — two runs agreeing on those (with identical
collaborator behaviour and initial state) produce identical results. -/
theorem measureOutboundDelay_reads_flag_state (env : Env) (ps1 ps2 : PackageState) (s : PState)
    (hres : env.resolveConfigFiles ps1 = env.resolveConfigFiles ps2)
    (hfmt : ps1.format = ps2.format)
    (hurl : ps1.pingUrl = ps2.pingUrl)
    (htmo : ps1.pingTimeout = ps2.pingTimeout) :
    measureOutboundDelay env ps1 s = measureOutboundDelay env ps2 s := by
  simp only [measureOutboundDelay, getConfigFormat, hres, hfmt, hurl, htmo]

/-- Claim C9 (witness): changing only the `configDir` flag, which enters the
run only through configuration-source resolution, does not change the
outcome. -/
theorem measureOutboundDelay_reads_flag_state_witness :
    measureOutboundDelay exEnv psGood ⟨0, []⟩
      = measureOutboundDelay exEnv { psGood with configDir := "/etc/xray" } ⟨0, []⟩ :=
  measureOutboundDelay_reads_flag_state exEnv psGood { psGood with configDir := "/etc/xray" }
    ⟨0, []⟩ rfl rfl rfl rfl

/-- Claim C10: every error return of `measureInstDelay` and of
`measureOutboundDelay` (timeout parse failure, request build failure,
transport or dial failure, configuration load or build failure, start
failure) pairs the error with exactly the empty string. -/
theorem error_return_pairs_empty_string :
    (∀ env inst url tmo s d e,
        (measureInstDelay env inst url tmo s).1 = Outcome.ret (d, some e) → d = "") ∧
    (∀ env ps s d e,
        (measureOutboundDelay env ps s).1 = Outcome.ret (d, some e) → d = "") := by
  refine ⟨fun env inst url tmo s d e h =>
    measureInstDelay_error_empty env inst url tmo s d e h, ?_⟩
  intro env ps s d e h
  simp only [measureOutboundDelay] at h
  rcases hload : env.loadConfig (getConfigFormat env ps) (env.resolveConfigFiles ps) with eL | cfg
  · simp only [hload] at h
    simp at h
    exact h.1.symm
  · simp only [hload] at h
    rcases hnew : env.coreNew (normalizeConfig env.logSerial cfg) with eN | inst
    · simp only [hnew] at h
      simp at h
      exact h.1.symm
    · simp only [hnew] at h
      rcases hstart : env.instStart inst with _ | eS
      · simp only [hstart] at h
        rcases hE : measureInstDelay env inst ps.pingUrl ps.pingTimeout
            (emit (emit s .instConstructed) .instStarted) with ⟨res, s3⟩
        rw [hE] at h
        cases res with
        | panicked m => simp at h
        | ret q =>
          obtain ⟨qd, qe⟩ := q
          have hq : (measureInstDelay env inst ps.pingUrl ps.pingTimeout
              (emit (emit s .instConstructed) .instStarted)).1 = .ret (qd, qe) := by
            rw [hE]
          simp at h
          obtain ⟨h1, h2⟩ := h
          subst h1
          subst h2
          exact measureInstDelay_error_empty env inst ps.pingUrl ps.pingTimeout
            (emit (emit s .instConstructed) .instStarted) _ _ hq
      · simp only [hstart] at h
        simp at h
        exact h.1.symm

/-- Claim C10 (witness): a concrete probe error (unitless timeout) and a
concrete outbound error (construction rejected) both pair the error with the
empty string. -/
theorem error_return_pairs_empty_witness :
    (measureInstDelay exEnv 1 "https://www.google.com/" "10" ⟨0, []⟩).1
        = Outcome.ret ("", some exParseErr) ∧
    ("" : String) = "" ∧
    (measureOutboundDelay exEnvNewFail psGood ⟨0, []⟩).1
        = Outcome.ret ("", some ⟨"core.New rejected config"⟩) ∧
    ("" : String) = "" :=
  ⟨rfl,
   error_return_pairs_empty_string.1 exEnv 1 "https://www.google.com/" "10" ⟨0, []⟩
      "" exParseErr rfl,
   rfl,
   error_return_pairs_empty_string.2 exEnvNewFail psGood ⟨0, []⟩ ""
      ⟨"core.New rejected config"⟩ rfl⟩

end PingConf
